import Mathlib

/-
Verification of the real-time connection and signaling core of the b4nter
chat backend, as implemented in backend/websocket_manager.py.

Shallow embedding conventions:
- Python dicts become association lists (iteration order is insertion
  order, as in CPython); dict key uniqueness appears as Nodup hypotheses.
- The manager state holds user_connections (keys of the user_id to
  websocket dict), user_channels (user_id to list of joined channel ids)
  and video_rooms (room_id to participant dict keyed by participant id).
- Outbound websocket traffic is a list of (recipient user id, payload)
  pairs; channel sends are modelled as succeeding (the claims under study
  concern routing, not the half-open-connection reaping path).
- External persistence collaborator calls (db.create_message,
  db.get_user_by_id, db.get_channel_by_name) are oracles passed as
  arguments: the embedding records what was submitted to the store and
  takes the collaborator response as an input.
-/

/-- Truthiness of an optional string, mirroring Python where None and the
empty string are falsy. -/
def truthy : Option String → Bool
  | none => false
  | some s => decide (s ≠ "")

/-- Record returned by db.create_message: the persisted message with the
identity and timestamps assigned by the store. -/
structure SavedMessage where
  id : String
  created_at : String
  updated_at : String
  image_url : Option String
deriving DecidableEq, Repr

/-- Sender profile fields fetched by db.get_user_by_id. -/
structure SenderInfo where
  username : Option String
  full_name : Option String
  avatar_url : Option String
deriving DecidableEq, Repr

/-- The message_data dict submitted to db.create_message. -/
structure MessageData where
  content : String
  sender_id : String
  channel_id : Option String
  recipient_id : Option String
  image_url : Option String
deriving DecidableEq, Repr

/-- The message_response dict built in send_message and fanned out. -/
structure MessageResponse where
  id : String
  content : String
  sender_id : String
  sender : SenderInfo
  channel_id : Option String
  recipient_id : Option String
  created_at : String
  updated_at : String
  image_url : Option String
deriving DecidableEq, Repr

/-- A call-room participant entry of video_rooms: dict key id, display
name, and the owning chat identity. -/
structure Participant where
  id : String
  name : String
  user_id : String
deriving DecidableEq, Repr

/-- The mutable state of WebSocketManager that the studied handlers read
and write. -/
structure ManagerState where
  user_connections : List String
  user_channels : List (String × List String)
  video_rooms : List (String × List Participant)
deriving DecidableEq, Repr

/-- Outbound event payloads, one constructor per json type emitted by the
handlers under study. -/
inductive Payload where
  | connectionEstablished (user_id : String)
  | channelJoined (channel_id user_id : String)
  | channelLeft (channel_id user_id : String)
  | newChannelMessage (m : MessageResponse)
  | newDirectMessage (m : MessageResponse)
  | reactionUpdate (message_id emoji user_id action : String) (count : Nat)
  | userStatus (user_id status : String)
  | errorMsg (message : String)
  | joinedRoom (roomId : String) (participants : List (String × String))
  | userJoined (pid pname : String)
  | userLeft (pid : String)
  | sfuOffer (offer senderId : String)
  | sfuAnswer (answer senderId : String)
  | sfuIceCandidate (candidate senderId : String)
deriving DecidableEq, Repr

/-- Discriminator: is the payload a channel chat-message event. -/
def isChannelMessage : Payload → Bool
  | .newChannelMessage _ => true
  | _ => false

/-- Discriminator: is the payload an error event. -/
def isErrorEvent : Payload → Bool
  | .errorMsg _ => true
  | _ => false

/-- send_to_user: deliver to one user if connected, else silently skip.
The send-failure reaping branch is not modelled (sends succeed here). -/
def send_to_user (st : ManagerState) (uid : String) (p : Payload) :
    List (String × Payload) :=
  if uid ∈ st.user_connections then [(uid, p)] else []

/-- broadcast_to_channel: iterate the user_channels dict and deliver to
every user that has joined the channel and is connected. -/
def broadcast_to_channel (st : ManagerState) (channel_id : String)
    (p : Payload) : List (String × Payload) :=
  st.user_channels.filterMap (fun e =>
    if channel_id ∈ e.2 ∧ e.1 ∈ st.user_connections then some (e.1, p)
    else none)

/-- broadcast_user_status: send a user_status payload to every connected
user. -/
def broadcast_user_status (st : ManagerState) (uid status : String) :
    List (String × Payload) :=
  st.user_connections.map (fun w => (w, Payload.userStatus uid status))

/-- Result of one send_message dispatch: what was submitted to
db.create_message (none when the call was never reached) and the
outbound events. -/
structure SendResult where
  storeRequest : Option MessageData
  events : List (String × Payload)
deriving DecidableEq, Repr

/-- The message_response dict as assembled at lines 132 to 146 of
websocket_manager.py: id and timestamps come from the saved record, the
rest from the request and the sender profile. -/
def buildResponse (content sender_id : String) (sender : SenderInfo)
    (channel_id recipient_id : Option String) (saved : SavedMessage) :
    MessageResponse :=
  { id := saved.id
    content := content
    sender_id := sender_id
    sender := sender
    channel_id := channel_id
    recipient_id := recipient_id
    created_at := saved.created_at
    updated_at := saved.updated_at
    image_url := saved.image_url }

/-- Tail of send_message after channel-id mapping: store the message,
fetch the sender, then route. saveResult and senderInfo are the oracle
responses of db.create_message and db.get_user_by_id. -/
def dispatchStored (st : ManagerState) (content sender_id : String)
    (channel_id recipient_id image_url : Option String)
    (saveResult : Option SavedMessage) (senderInfo : Option SenderInfo) :
    SendResult :=
  let req : MessageData :=
    ⟨content, sender_id, channel_id, recipient_id, image_url⟩
  match saveResult with
  | none => ⟨some req, []⟩
  | some saved =>
    match senderInfo with
    | none => ⟨some req, []⟩
    | some sender =>
      let resp :=
        buildResponse content sender_id sender channel_id recipient_id saved
      if truthy channel_id then
        ⟨some req,
          broadcast_to_channel st (channel_id.getD "")
            (Payload.newChannelMessage resp)⟩
      else if truthy recipient_id then
        ⟨some req,
          send_to_user st (recipient_id.getD "")
              (Payload.newDirectMessage resp)
            ++ send_to_user st sender_id (Payload.newDirectMessage resp)⟩
      else ⟨some req, []⟩

/-- WebSocketManager.send_message, lines 101 to 170. lookup is the
get_channel_uuid oracle (uuid passthrough or db.get_channel_by_name);
a channel id that does not resolve aborts silently before the store. -/
def send_message (st : ManagerState) (content sender_id : String)
    (channel_id recipient_id image_url : Option String)
    (lookup : String → Option String)
    (saveResult : Option SavedMessage) (senderInfo : Option SenderInfo) :
    SendResult :=
  if truthy channel_id then
    let mapped := lookup (channel_id.getD "")
    if truthy mapped then
      dispatchStored st content sender_id mapped recipient_id image_url
        saveResult senderInfo
    else ⟨none, []⟩
  else
    dispatchStored st content sender_id channel_id recipient_id image_url
      saveResult senderInfo

/-- A reaction row of the message_reactions table: the triple whose
uniqueness the persistence collaborator enforces (spec section 6). -/
structure Reaction where
  message_id : String
  user_id : String
  emoji : String
deriving DecidableEq, Repr

/-- db.add_reaction: insert the triple; the unique constraint of the
store makes a duplicate insert a no-op failure that leaves the table
unchanged. -/
def db_add_reaction (db : List Reaction) (mid uid emoji : String) :
    List Reaction :=
  if (⟨mid, uid, emoji⟩ : Reaction) ∈ db then db
  else db ++ [⟨mid, uid, emoji⟩]

/-- db.remove_reaction: delete the rows matching all three of
message_id, user_id and emoji. -/
def db_remove_reaction (db : List Reaction) (mid uid emoji : String) :
    List Reaction :=
  db.filter (fun r => decide (r ≠ (⟨mid, uid, emoji⟩ : Reaction)))

/-- db.get_reactions_for_message: every row of the given message. -/
def db_get_reactions_for_message (db : List Reaction) (mid : String) :
    List Reaction :=
  db.filter (fun r => decide (r.message_id = mid))

/-- The per-emoji count recomputed in add_reaction and remove_reaction:
size of the freshly fetched reaction set filtered by the emoji. -/
def emojiCount (db : List Reaction) (mid emoji : String) : Nat :=
  (db_get_reactions_for_message db mid).countP
    (fun r => decide (r.emoji = emoji))

/-- Routing shared by the two reaction handlers: channel broadcast, or
send to both direct-conversation users, or nothing. -/
def reaction_dispatch (st : ManagerState) (uid : String)
    (channel_id recipient_id : Option String) (p : Payload) :
    List (String × Payload) :=
  if truthy channel_id then
    broadcast_to_channel st (channel_id.getD "") p
  else if truthy recipient_id then
    send_to_user st (recipient_id.getD "") p ++ send_to_user st uid p
  else []

/-- WebSocketManager.add_reaction, lines 199 to 227: delegate the insert
to the store, re-fetch the full reaction set, recompute the count, fan
out the delta. Returns the new table and the outbound events. -/
def add_reaction (st : ManagerState) (db : List Reaction) (uid : String)
    (message_id emoji channel_id recipient_id : Option String) :
    List Reaction × List (String × Payload) :=
  if truthy message_id ∧ truthy emoji then
    let mid := message_id.getD ""
    let em := emoji.getD ""
    let db1 := db_add_reaction db mid uid em
    let cnt := emojiCount db1 mid em
    (db1,
      reaction_dispatch st uid channel_id recipient_id
        (Payload.reactionUpdate mid em uid "add" cnt))
  else (db, [])

/-- WebSocketManager.remove_reaction, lines 229 to 257: same shape as
add_reaction with the delete mutation and action remove. -/
def remove_reaction (st : ManagerState) (db : List Reaction)
    (uid : String)
    (message_id emoji channel_id recipient_id : Option String) :
    List Reaction × List (String × Payload) :=
  if truthy message_id ∧ truthy emoji then
    let mid := message_id.getD ""
    let em := emoji.getD ""
    let db1 := db_remove_reaction db mid uid em
    let cnt := emojiCount db1 mid em
    (db1,
      reaction_dispatch st uid channel_id recipient_id
        (Payload.reactionUpdate mid em uid "remove" cnt))
  else (db, [])

/-- Dict assignment room[participant_id] = participant_info: replace in
place when the key exists, append otherwise. -/
def assocSetParticipant (parts : List Participant) (p : Participant) :
    List Participant :=
  if parts.any (fun q => decide (q.id = p.id)) then
    parts.map (fun q => if q.id = p.id then p else q)
  else parts ++ [p]

/-- Room table after the create-if-absent step of a join (lines 806 to
808). -/
def roomsAfterCreate (rooms : List (String × List Participant))
    (rid : String) : List (String × List Participant) :=
  if rooms.any (fun r => decide (r.1 = rid)) then rooms
  else rooms ++ [(rid, [])]

/-- The participant dict of the room with the given key (the room just
created or found). -/
def roomParts (rooms : List (String × List Participant)) (rid : String) :
    List Participant :=
  ((rooms.find? (fun r => decide (r.1 = rid))).map Prod.snd).getD []

/-- WebSocketManager.handle_sfu_join_room, lines 793 to 843: create the
room on first join, register the participant under key user_id (the
source sets participant_id to user_id), confirm to the joiner with the
other participants, notify the others. -/
def handle_sfu_join_room (st : ManagerState) (uid : String)
    (roomId userName : Option String) :
    ManagerState × List (String × Payload) :=
  if truthy roomId ∧ truthy userName then
    let rid := roomId.getD ""
    let name := userName.getD ""
    let rooms0 := roomsAfterCreate st.video_rooms rid
    let parts0 := roomParts rooms0 rid
    let pinfo : Participant := ⟨uid, name, uid⟩
    let parts1 := assocSetParticipant parts0 pinfo
    let rooms1 :=
      rooms0.map (fun r => if r.1 = rid then (r.1, parts1) else r)
    let others := parts1.filter (fun q => decide (q.id ≠ uid))
    let evs :=
      send_to_user st uid
          (Payload.joinedRoom rid (others.map (fun q => (q.id, q.name))))
        ++ others.flatMap
            (fun q => send_to_user st q.user_id (Payload.userJoined uid name))
    ({ st with video_rooms := rooms1 }, evs)
  else
    (st, send_to_user st uid
      (Payload.errorMsg "Room ID and user name are required"))

/-- First video room whose participant keys contain the given user, in
dict iteration order, as in the room-search loops of the SFU relays. -/
def findRoomOf (rooms : List (String × List Participant)) (uid : String) :
    Option (String × List Participant) :=
  rooms.find? (fun r => r.2.any (fun p => decide (p.id = uid)))

/-- Shared body of the three SFU relay handlers: require target and
payload, locate the room of the sender, look the target key up in that
same room, then forward to the owning user. The handlers read
video_rooms and never mutate any state. -/
def sfu_relay (st : ManagerState) (uid : String)
    (targetId payload : Option String) (mk : String → String → Payload) :
    List (String × Payload) :=
  if truthy targetId ∧ truthy payload then
    let t := targetId.getD ""
    let o := payload.getD ""
    match findRoomOf st.video_rooms uid with
    | none => []
    | some r =>
      match r.2.find? (fun p => decide (p.id = t)) with
      | none => []
      | some p =>
        if p.user_id ≠ "" then send_to_user st p.user_id (mk o uid)
        else []
  else []

/-- WebSocketManager.handle_sfu_offer, lines 845 to 879. -/
def handle_sfu_offer (st : ManagerState) (uid : String)
    (targetId offer : Option String) : List (String × Payload) :=
  sfu_relay st uid targetId offer Payload.sfuOffer

/-- WebSocketManager.handle_sfu_answer, lines 881 to 915. -/
def handle_sfu_answer (st : ManagerState) (uid : String)
    (targetId answer : Option String) : List (String × Payload) :=
  sfu_relay st uid targetId answer Payload.sfuAnswer

/-- WebSocketManager.handle_sfu_ice_candidate, lines 917 to 951. -/
def handle_sfu_ice_candidate (st : ManagerState) (uid : String)
    (targetId candidate : Option String) : List (String × Payload) :=
  sfu_relay st uid targetId candidate Payload.sfuIceCandidate

/-- The user-left notifications issued while cleaning the video rooms of
a disconnecting user (lines 955 to 972): for every room whose keys
contain the user, notify each remaining participant. -/
def disconnectRoomEvents (st : ManagerState) (uid : String) :
    List (String × Payload) :=
  st.video_rooms.flatMap (fun r =>
    if r.2.any (fun p => decide (p.id = uid)) then
      (r.2.filter (fun p => decide (p.id ≠ uid))).flatMap
        (fun p => send_to_user st p.user_id (Payload.userLeft uid))
    else [])

/-- Video-room table after the disconnect cleanup: entries keyed by the
user are deleted from each room, and a room the user emptied is removed
(lines 955 to 981). -/
def disconnectRooms (rooms : List (String × List Participant))
    (uid : String) : List (String × List Participant) :=
  rooms.filterMap (fun r =>
    if r.2.any (fun p => decide (p.id = uid)) then
      let parts := r.2.filter (fun p => decide (p.id ≠ uid))
      if parts.isEmpty then none else some (r.1, parts)
    else some r)

/-- WebSocketManager.disconnect, lines 953 to 993 (the later definition,
which overrides the earlier one): video-room cleanup with notifications,
then removal of the connection entry and the channel membership of the
user. -/
def disconnect (st : ManagerState) (uid : String) :
    ManagerState × List (String × Payload) :=
  let evs := disconnectRoomEvents st uid
  let rooms1 := disconnectRooms st.video_rooms uid
  if uid ∈ st.user_connections then
    ({ user_connections := st.user_connections.filter (fun u => decide (u ≠ uid))
       user_channels := st.user_channels.filter (fun e => decide (e.1 ≠ uid))
       video_rooms := rooms1 }, evs)
  else
    ({ st with video_rooms := rooms1 }, evs)

/-- The WebSocketDisconnect branch of handle_websocket_message, lines
370 to 374: run disconnect, then broadcast the offline status to the
remaining connections. -/
def handle_disconnect_event (st : ManagerState) (uid : String) :
    ManagerState × List (String × Payload) :=
  let r := disconnect st uid
  (r.1, r.2 ++ broadcast_user_status r.1 uid "offline")

theorem truthy_some {s : String} (h : s ≠ "") : truthy (some s) = true := by
  simp [truthy, h]

theorem send_to_user_mem (st : ManagerState) (u : String) (p : Payload) :
    ∀ e ∈ send_to_user st u p, e = (u, p) := by
  intro e he
  unfold send_to_user at he
  split at he
  · simpa using he
  · simp at he

theorem broadcast_payload (st : ManagerState) (c : String) (p : Payload) :
    ∀ e ∈ broadcast_to_channel st c p, e.2 = p := by
  intro e he
  unfold broadcast_to_channel at he
  rw [List.mem_filterMap] at he
  obtain ⟨a, _, hf⟩ := he
  split at hf
  · cases hf; rfl
  · cases hf

/-- Claim C1, counterexample: a direct message whose store call fails
produces no error event whatsoever to the sender, while the claim
expects a StorageFailure error event to be surfaced. -/
theorem storage_failure_no_error_event :
    ¬ ∃ e ∈ (send_message ⟨["u1", "u2"], [("u1", ["g"]), ("u2", ["g"])], []⟩
        "hi" "u1" none (some "u2") none
        (fun _ => none) none (some ⟨some "U1", none, none⟩)).events,
      isErrorEvent e.2 = true := by decide

/-- Claim C1, amended: when db.create_message fails, send_message emits
no outbound event at all: no chat-message to any connection, and no
error event to the sender either (the failure is only logged). -/
theorem storage_failure_silent (st : ManagerState)
    (content sender_id : String)
    (channel_id recipient_id image_url : Option String)
    (lookup : String → Option String) (senderInfo : Option SenderInfo) :
    (send_message st content sender_id channel_id recipient_id image_url
      lookup none senderInfo).events = [] := by
  have hnone : ∀ ch,
      (dispatchStored st content sender_id ch recipient_id image_url
        none senderInfo).events = [] := fun _ => rfl
  unfold send_message
  split
  · dsimp only
    split
    · exact hnone _
    · rfl
  · exact hnone _

/-- Claim C2, counterexample: both channel and recipient ids are set,
yet the dispatch is not rejected: the message is broadcast to the
channel and no error event is emitted. -/
theorem both_targets_still_broadcasts :
    (∃ e ∈ (send_message ⟨["u1", "u2"], [("u1", ["g"]), ("u2", ["g"])], []⟩
        "hi" "u1" (some "g") (some "u2") none
        (fun s => some s) (some ⟨"m1", "t1", "t2", none⟩)
        (some ⟨some "U1", none, none⟩)).events,
      isChannelMessage e.2 = true)
    ∧ ∀ e ∈ (send_message ⟨["u1", "u2"], [("u1", ["g"]), ("u2", ["g"])], []⟩
        "hi" "u1" (some "g") (some "u2") none
        (fun s => some s) (some ⟨"m1", "t1", "t2", none⟩)
        (some ⟨some "U1", none, none⟩)).events,
      isErrorEvent e.2 = false := by decide

/-- Claim C2, amended: the dispatcher performs no target validation and
has no InvalidTarget error. With both ids set and a resolving channel,
the message is stored carrying both fields and broadcast to the channel
members with no error event; with neither id set, the message is stored
and zero events are emitted. -/
theorem no_invalid_target_validation (st : ManagerState)
    (content sender_id cid m rid : String) (img : Option String)
    (lookup : String → Option String) (saved : SavedMessage)
    (sender : SenderInfo)
    (hc : cid ≠ "") (hl : lookup cid = some m) (hm : m ≠ "") :
    ((send_message st content sender_id (some cid) (some rid) img lookup
        (some saved) (some sender)).events
      = broadcast_to_channel st m (Payload.newChannelMessage
          (buildResponse content sender_id sender (some m) (some rid) saved))
      ∧ (send_message st content sender_id (some cid) (some rid) img lookup
          (some saved) (some sender)).storeRequest
        = some ⟨content, sender_id, some m, some rid, img⟩
      ∧ ∀ e ∈ (send_message st content sender_id (some cid) (some rid) img
          lookup (some saved) (some sender)).events,
          isErrorEvent e.2 = false)
    ∧ ((send_message st content sender_id none none img lookup (some saved)
        (some sender)).events = []
      ∧ (send_message st content sender_id none none img lookup (some saved)
          (some sender)).storeRequest
        = some ⟨content, sender_id, none, none, img⟩) := by
  have hsend : send_message st content sender_id (some cid) (some rid) img
      lookup (some saved) (some sender)
      = dispatchStored st content sender_id (some m) (some rid) img
          (some saved) (some sender) := by
    unfold send_message
    rw [truthy_some hc]
    simp only [Option.getD_some, hl, truthy_some hm, if_true]
  have hdisp : dispatchStored st content sender_id (some m) (some rid) img
      (some saved) (some sender)
      = ⟨some ⟨content, sender_id, some m, some rid, img⟩,
          broadcast_to_channel st m (Payload.newChannelMessage
            (buildResponse content sender_id sender (some m) (some rid)
              saved))⟩ := by
    unfold dispatchStored
    rw [truthy_some hm]
    simp
  refine ⟨⟨?_, ?_, ?_⟩, ?_, ?_⟩
  · rw [hsend, hdisp]
  · rw [hsend, hdisp]
  · intro e he
    rw [hsend, hdisp] at he
    have := broadcast_payload st m _ e he
    rw [this]
    rfl
  · rfl
  · rfl

/-- Claim C2, witness. -/
theorem no_invalid_target_validation_witness :
    ((send_message ⟨["u1", "u2"], [("u1", ["g"]), ("u2", ["g"])], []⟩
        "hi" "u1" (some "g") (some "u2") none (fun s => some s)
        (some ⟨"m1", "t1", "t2", none⟩) (some ⟨some "U1", none, none⟩)).events
      = broadcast_to_channel ⟨["u1", "u2"], [("u1", ["g"]), ("u2", ["g"])], []⟩
          "g" (Payload.newChannelMessage
          (buildResponse "hi" "u1" ⟨some "U1", none, none⟩ (some "g")
            (some "u2") ⟨"m1", "t1", "t2", none⟩))
      ∧ (send_message ⟨["u1", "u2"], [("u1", ["g"]), ("u2", ["g"])], []⟩
          "hi" "u1" (some "g") (some "u2") none (fun s => some s)
          (some ⟨"m1", "t1", "t2", none⟩)
          (some ⟨some "U1", none, none⟩)).storeRequest
        = some ⟨"hi", "u1", some "g", some "u2", none⟩
      ∧ ∀ e ∈ (send_message ⟨["u1", "u2"], [("u1", ["g"]), ("u2", ["g"])], []⟩
          "hi" "u1" (some "g") (some "u2") none (fun s => some s)
          (some ⟨"m1", "t1", "t2", none⟩)
          (some ⟨some "U1", none, none⟩)).events,
          isErrorEvent e.2 = false)
    ∧ ((send_message ⟨["u1", "u2"], [("u1", ["g"]), ("u2", ["g"])], []⟩
        "hi" "u1" none none none (fun s => some s)
        (some ⟨"m1", "t1", "t2", none⟩)
        (some ⟨some "U1", none, none⟩)).events = []
      ∧ (send_message ⟨["u1", "u2"], [("u1", ["g"]), ("u2", ["g"])], []⟩
          "hi" "u1" none none none (fun s => some s)
          (some ⟨"m1", "t1", "t2", none⟩)
          (some ⟨some "U1", none, none⟩)).storeRequest
        = some ⟨"hi", "u1", none, none, none⟩) :=
  no_invalid_target_validation _ "hi" "u1" "g" "g" "u2" none _
    ⟨"m1", "t1", "t2", none⟩ ⟨some "U1", none, none⟩
    (by decide) rfl (by decide)

/-- Claim C10: with neither a channel id nor a recipient id, the message
is still submitted to the persistence collaborator, yet zero events are
emitted: no chat-message and no error event to anyone, including the
sender. -/
theorem targetless_message_stored_not_delivered (st : ManagerState)
    (content sender_id : String) (img : Option String)
    (lookup : String → Option String) (saved : SavedMessage)
    (sender : SenderInfo) :
    (send_message st content sender_id none none img lookup (some saved)
        (some sender)).storeRequest
      = some ⟨content, sender_id, none, none, img⟩
    ∧ (send_message st content sender_id none none img lookup (some saved)
        (some sender)).events = [] := by
  exact ⟨rfl, rfl⟩

theorem countP_broadcast_zero (conns : List String) (c : String)
    (p : Payload) (u0 : String) (l : List (String × List String))
    (hnot : u0 ∉ l.map Prod.fst) :
    (l.filterMap (fun e =>
        if c ∈ e.2 ∧ e.1 ∈ conns then some (e.1, p) else none)).countP
      (fun e => decide (e = (u0, p))) = 0 := by
  induction l with
  | nil => rfl
  | cons a t ih =>
    rw [List.map_cons] at hnot
    have h1 : u0 ≠ a.1 := fun h => hnot (h ▸ List.mem_cons_self _ _)
    have h2 : u0 ∉ t.map Prod.fst := fun h => hnot (List.mem_cons_of_mem _ h)
    by_cases hc : c ∈ a.2 ∧ a.1 ∈ conns
    · simp only [List.filterMap_cons, if_pos hc]
      rw [List.countP_cons, ih h2]
      simp [Ne.symm h1]
    · simp only [List.filterMap_cons, if_neg hc]
      exact ih h2

theorem countP_broadcast_one (conns : List String) (c : String)
    (p : Payload) (u0 : String) (chs : List String)
    (l : List (String × List String))
    (hnd : (l.map Prod.fst).Nodup)
    (hmem : (u0, chs) ∈ l) (hch : c ∈ chs) (hconn : u0 ∈ conns) :
    (l.filterMap (fun e =>
        if c ∈ e.2 ∧ e.1 ∈ conns then some (e.1, p) else none)).countP
      (fun e => decide (e = (u0, p))) = 1 := by
  induction l with
  | nil => cases hmem
  | cons a t ih =>
    rw [List.map_cons, List.nodup_cons] at hnd
    rcases List.mem_cons.mp hmem with h | h
    · subst h
      have hc : c ∈ (u0, chs).2 ∧ (u0, chs).1 ∈ conns := ⟨hch, hconn⟩
      simp only [List.filterMap_cons, if_pos hc]
      rw [List.countP_cons, countP_broadcast_zero conns c p u0 t hnd.1]
      simp
    · have hu0t : u0 ∈ t.map Prod.fst := List.mem_map.mpr ⟨(u0, chs), h, rfl⟩
      have ha : a.1 ≠ u0 := fun hh => hnd.1 (hh ▸ hu0t)
      by_cases hc : c ∈ a.2 ∧ a.1 ∈ conns
      · simp only [List.filterMap_cons, if_pos hc]
        rw [List.countP_cons, ih hnd.2 h]
        simp [ha]
      · simp only [List.filterMap_cons, if_neg hc]
        exact ih hnd.2 h

/-- Events of a room-targeted send_message whose channel resolves and
whose store and sender lookups succeed: the broadcast of the persisted
response to the channel. -/
theorem send_message_channel_events (st : ManagerState)
    (content sender_id cid m : String) (rid img : Option String)
    (lookup : String → Option String) (saved : SavedMessage)
    (sender : SenderInfo)
    (hc : cid ≠ "") (hl : lookup cid = some m) (hm : m ≠ "") :
    (send_message st content sender_id (some cid) rid img lookup
        (some saved) (some sender)).events
      = broadcast_to_channel st m (Payload.newChannelMessage
          (buildResponse content sender_id sender (some m) rid saved)) := by
  unfold send_message
  rw [truthy_some hc]
  dsimp only
  simp only [Option.getD_some, hl, truthy_some hm, if_true]
  unfold dispatchStored
  rw [truthy_some hm]
  simp

/-- A reusable concrete state: users u1 and u2 connected, both joined
channel g, no video rooms. -/
def stPair : ManagerState :=
  ⟨["u1", "u2"], [("u1", ["g"]), ("u2", ["g"])], []⟩

/-- Claim C3: a message successfully dispatched to a room is received
exactly once by every identity that is a member of the room at dispatch
time, and the delivered event carries the id and timestamp assigned by
the persistence collaborator (buildResponse copies them from the saved
record; the client request has no id or timestamp field to take). -/
theorem room_message_exactly_once (st : ManagerState)
    (content sender_id cid m : String) (img : Option String)
    (lookup : String → Option String) (saved : SavedMessage)
    (sender : SenderInfo) (u0 : String) (chs : List String)
    (hc : cid ≠ "") (hl : lookup cid = some m) (hm : m ≠ "")
    (hnd : (st.user_channels.map Prod.fst).Nodup)
    (hmem : (u0, chs) ∈ st.user_channels) (hch : m ∈ chs)
    (hconn : u0 ∈ st.user_connections) :
    ((send_message st content sender_id (some cid) none img lookup
        (some saved) (some sender)).events).countP
      (fun e => decide (e = (u0, Payload.newChannelMessage
        (buildResponse content sender_id sender (some m) none saved)))) = 1
    ∧ (buildResponse content sender_id sender (some m) none saved).id
        = saved.id
    ∧ (buildResponse content sender_id sender (some m) none saved).created_at
        = saved.created_at := by
  refine ⟨?_, rfl, rfl⟩
  rw [send_message_channel_events st content sender_id cid m none img lookup
    saved sender hc hl hm]
  unfold broadcast_to_channel
  exact countP_broadcast_one st.user_connections m _ u0 chs
    st.user_channels hnd hmem hch hconn

/-- Claim C3, witness. -/
theorem room_message_exactly_once_witness :
    ((send_message stPair "hi" "u1" (some "g") none none (fun s => some s)
        (some ⟨"m1", "t1", "t2", none⟩)
        (some ⟨some "U1", none, none⟩)).events).countP
      (fun e => decide (e = ("u2", Payload.newChannelMessage
        (buildResponse "hi" "u1" ⟨some "U1", none, none⟩ (some "g") none
          ⟨"m1", "t1", "t2", none⟩)))) = 1
    ∧ (buildResponse "hi" "u1" ⟨some "U1", none, none⟩ (some "g") none
        ⟨"m1", "t1", "t2", none⟩).id = "m1"
    ∧ (buildResponse "hi" "u1" ⟨some "U1", none, none⟩ (some "g") none
        ⟨"m1", "t1", "t2", none⟩).created_at = "t1" :=
  room_message_exactly_once stPair "hi" "u1" "g" "g" none (fun s => some s)
    ⟨"m1", "t1", "t2", none⟩ ⟨some "U1", none, none⟩ "u2" ["g"]
    (by decide) rfl (by decide) (by decide) (by decide) (by decide)
    (by decide)

/-- Claim C4, counterexample: u1 and u2 both joined channel g and u1
sends a room message; the sender u1 also receives the chat-message
event, while the claim says u1 receives nothing extra. -/
theorem room_sender_receives_echo :
    ∃ e ∈ (send_message stPair "hi" "u1" (some "g") none none
        (fun s => some s) (some ⟨"m1", "t1", "t2", none⟩)
        (some ⟨some "U1", none, none⟩)).events,
      e.1 = "u1" ∧ isChannelMessage e.2 = true := by decide

/-- Claim C4, amended: for a room message, every member including the
joined sender receives the chat-message event (room broadcasts are not
filtered by sender); for a direct message, the recipient and the sender
both receive the event. -/
theorem room_echo_and_direct_echo (st : ManagerState)
    (content sender_id cid m rcpt : String) (img : Option String)
    (lookup : String → Option String) (saved : SavedMessage)
    (sender : SenderInfo) (chs : List String)
    (hc : cid ≠ "") (hl : lookup cid = some m) (hm : m ≠ "")
    (hmem : (sender_id, chs) ∈ st.user_channels) (hch : m ∈ chs)
    (hconn : sender_id ∈ st.user_connections)
    (hr : rcpt ≠ "") (hrc : rcpt ∈ st.user_connections) :
    (sender_id, Payload.newChannelMessage
        (buildResponse content sender_id sender (some m) none saved))
      ∈ (send_message st content sender_id (some cid) none img lookup
          (some saved) (some sender)).events
    ∧ (send_message st content sender_id none (some rcpt) img lookup
        (some saved) (some sender)).events
      = [(rcpt, Payload.newDirectMessage
            (buildResponse content sender_id sender none (some rcpt) saved)),
         (sender_id, Payload.newDirectMessage
            (buildResponse content sender_id sender none (some rcpt) saved))] := by
  constructor
  · rw [send_message_channel_events st content sender_id cid m none img
      lookup saved sender hc hl hm]
    unfold broadcast_to_channel
    exact List.mem_filterMap.mpr
      ⟨(sender_id, chs), hmem, by rw [if_pos ⟨hch, hconn⟩]⟩
  · simp only [send_message, dispatchStored, truthy]
    simp [hr, send_to_user, hrc, hconn]

/-- Claim C4, witness. -/
theorem room_echo_and_direct_echo_witness :
    ("u1", Payload.newChannelMessage
        (buildResponse "hi" "u1" ⟨some "U1", none, none⟩ (some "g") none
          ⟨"m1", "t1", "t2", none⟩))
      ∈ (send_message stPair "hi" "u1" (some "g") none none
          (fun s => some s) (some ⟨"m1", "t1", "t2", none⟩)
          (some ⟨some "U1", none, none⟩)).events
    ∧ (send_message stPair "hi" "u1" none (some "u2") none
        (fun s => some s) (some ⟨"m1", "t1", "t2", none⟩)
        (some ⟨some "U1", none, none⟩)).events
      = [("u2", Payload.newDirectMessage
            (buildResponse "hi" "u1" ⟨some "U1", none, none⟩ none
              (some "u2") ⟨"m1", "t1", "t2", none⟩)),
         ("u1", Payload.newDirectMessage
            (buildResponse "hi" "u1" ⟨some "U1", none, none⟩ none
              (some "u2") ⟨"m1", "t1", "t2", none⟩))] :=
  room_echo_and_direct_echo stPair "hi" "u1" "g" "g" "u2" none
    (fun s => some s) ⟨"m1", "t1", "t2", none⟩ ⟨some "U1", none, none⟩
    ["g"] (by decide) rfl (by decide) (by decide) (by decide) (by decide)
    (by decide) (by decide)

theorem reaction_dispatch_payload (st : ManagerState) (uid : String)
    (c r : Option String) (p : Payload) :
    ∀ e ∈ reaction_dispatch st uid c r p, e.2 = p := by
  intro e he
  unfold reaction_dispatch at he
  split at he
  · exact broadcast_payload st _ p e he
  · split at he
    · rw [List.mem_append] at he
      rcases he with h | h
      · rw [send_to_user_mem st _ p e h]
      · rw [send_to_user_mem st _ p e h]
    · simp at he

/-- Claim C8: the count carried by every reaction_update event equals
the size of the freshly re-fetched reaction set of the message filtered
by the emoji (a natural number recomputed from the table after the
mutation, never a locally adjusted value, hence never negative);
removing an already absent reaction leaves the table, and therefore the
broadcast count, unchanged. -/
theorem reaction_count_recomputed (st : ManagerState) (db : List Reaction)
    (uid mid em : String) (cid rid : Option String)
    (hm : mid ≠ "") (he : em ≠ "") :
    (∀ e ∈ (add_reaction st db uid (some mid) (some em) cid rid).2,
      e.2 = Payload.reactionUpdate mid em uid "add"
        (emojiCount (add_reaction st db uid (some mid) (some em) cid rid).1
          mid em))
    ∧ (∀ e ∈ (remove_reaction st db uid (some mid) (some em) cid rid).2,
      e.2 = Payload.reactionUpdate mid em uid "remove"
        (emojiCount
          (remove_reaction st db uid (some mid) (some em) cid rid).1
          mid em))
    ∧ ((⟨mid, uid, em⟩ : Reaction) ∉ db →
      (remove_reaction st db uid (some mid) (some em) cid rid).1 = db
      ∧ ∀ e ∈ (remove_reaction st db uid (some mid) (some em) cid rid).2,
          e.2 = Payload.reactionUpdate mid em uid "remove"
            (emojiCount db mid em)) := by
  have hadd : add_reaction st db uid (some mid) (some em) cid rid
      = (db_add_reaction db mid uid em,
        reaction_dispatch st uid cid rid
          (Payload.reactionUpdate mid em uid "add"
            (emojiCount (db_add_reaction db mid uid em) mid em))) := by
    unfold add_reaction
    rw [if_pos ⟨truthy_some hm, truthy_some he⟩]
    rfl
  have hrem : remove_reaction st db uid (some mid) (some em) cid rid
      = (db_remove_reaction db mid uid em,
        reaction_dispatch st uid cid rid
          (Payload.reactionUpdate mid em uid "remove"
            (emojiCount (db_remove_reaction db mid uid em) mid em))) := by
    unfold remove_reaction
    rw [if_pos ⟨truthy_some hm, truthy_some he⟩]
    rfl
  refine ⟨?_, ?_, ?_⟩
  · intro e hemem
    rw [hadd] at hemem ⊢
    exact reaction_dispatch_payload st uid cid rid _ e hemem
  · intro e hemem
    rw [hrem] at hemem ⊢
    exact reaction_dispatch_payload st uid cid rid _ e hemem
  · intro habs
    have hdb : db_remove_reaction db mid uid em = db := by
      unfold db_remove_reaction
      apply List.filter_eq_self.mpr
      intro r hrmem
      simp only [decide_eq_true_eq]
      intro hcontra
      exact habs (hcontra ▸ hrmem)
    constructor
    · rw [hrem, hdb]
    · intro e hemem
      rw [hrem] at hemem
      have hpl := reaction_dispatch_payload st uid cid rid _ e hemem
      rw [hpl, hdb]

/-- Claim C8, witness. -/
theorem reaction_count_recomputed_witness :
    (∀ e ∈ (add_reaction stPair [] "u1" (some "m") (some "e") (some "g")
        none).2,
      e.2 = Payload.reactionUpdate "m" "e" "u1" "add"
        (emojiCount (add_reaction stPair [] "u1" (some "m") (some "e")
          (some "g") none).1 "m" "e"))
    ∧ (∀ e ∈ (remove_reaction stPair [] "u1" (some "m") (some "e")
        (some "g") none).2,
      e.2 = Payload.reactionUpdate "m" "e" "u1" "remove"
        (emojiCount (remove_reaction stPair [] "u1" (some "m") (some "e")
          (some "g") none).1 "m" "e"))
    ∧ ((⟨"m", "u1", "e"⟩ : Reaction) ∉ ([] : List Reaction) →
      (remove_reaction stPair [] "u1" (some "m") (some "e") (some "g")
          none).1 = []
      ∧ ∀ e ∈ (remove_reaction stPair [] "u1" (some "m") (some "e")
          (some "g") none).2,
          e.2 = Payload.reactionUpdate "m" "e" "u1" "remove"
            (emojiCount [] "m" "e")) :=
  reaction_count_recomputed stPair [] "u1" "m" "e" (some "g") none
    (by decide) (by decide)

/-- Claim C6: a call relay (offer, answer or connectivity candidate)
whose target participant is not present in the call room of the sender
is dropped: no outbound event is emitted to any connection, not even an
error to the sender. The relay handlers only read video_rooms and never
write any state, so nothing changes. -/
theorem relay_to_absent_target_dropped (st : ManagerState)
    (uid t o : String) (r : String × List Participant)
    (ht : t ≠ "") (ho : o ≠ "")
    (hr : findRoomOf st.video_rooms uid = some r)
    (habs : ∀ p ∈ r.2, p.id ≠ t) :
    handle_sfu_offer st uid (some t) (some o) = []
    ∧ handle_sfu_answer st uid (some t) (some o) = []
    ∧ handle_sfu_ice_candidate st uid (some t) (some o) = [] := by
  have hfind : r.2.find? (fun p => decide (p.id = t)) = none :=
    List.find?_eq_none.mpr (fun p hp => by simpa using habs p hp)
  have key : ∀ mk : String → String → Payload,
      sfu_relay st uid (some t) (some o) mk = [] := by
    intro mk
    unfold sfu_relay
    rw [if_pos ⟨truthy_some ht, truthy_some ho⟩]
    simp only [Option.getD_some, hr, hfind]
  refine ⟨?_, ?_, ?_⟩
  · unfold handle_sfu_offer
    exact key _
  · unfold handle_sfu_answer
    exact key _
  · unfold handle_sfu_ice_candidate
    exact key _

/-- Claim C6, witness. -/
theorem relay_to_absent_target_dropped_witness :
    handle_sfu_offer ⟨["u1"], [], [("A", [⟨"u1", "P1", "u1"⟩])]⟩ "u1"
        (some "u2") (some "sdp") = []
    ∧ handle_sfu_answer ⟨["u1"], [], [("A", [⟨"u1", "P1", "u1"⟩])]⟩ "u1"
        (some "u2") (some "sdp") = []
    ∧ handle_sfu_ice_candidate ⟨["u1"], [], [("A", [⟨"u1", "P1", "u1"⟩])]⟩
        "u1" (some "u2") (some "sdp") = [] :=
  relay_to_absent_target_dropped ⟨["u1"], [], [("A", [⟨"u1", "P1", "u1"⟩])]⟩
    "u1" "u2" "sdp" ("A", [⟨"u1", "P1", "u1"⟩]) (by decide) (by decide)
    (by decide) (by decide)

/-- Claim C7: with sender and target both present in the same call room,
an offer relay emits exactly one event, addressed to the owning user of
the target participant, with the opaque payload forwarded unchanged; the
sender receives nothing. -/
theorem relay_offer_to_target_only (st : ManagerState)
    (uid t o : String) (r : String × List Participant) (p : Participant)
    (ht : t ≠ "") (ho : o ≠ "")
    (hr : findRoomOf st.video_rooms uid = some r)
    (hp : r.2.find? (fun q => decide (q.id = t)) = some p)
    (hpc : p.user_id ∈ st.user_connections)
    (hpu : p.user_id ≠ "") (hne : p.user_id ≠ uid) :
    handle_sfu_offer st uid (some t) (some o)
      = [(p.user_id, Payload.sfuOffer o uid)]
    ∧ ∀ e ∈ handle_sfu_offer st uid (some t) (some o), e.1 ≠ uid := by
  have h1 : handle_sfu_offer st uid (some t) (some o)
      = [(p.user_id, Payload.sfuOffer o uid)] := by
    unfold handle_sfu_offer sfu_relay
    rw [if_pos ⟨truthy_some ht, truthy_some ho⟩]
    simp only [Option.getD_some, hr, hp]
    rw [if_pos hpu]
    unfold send_to_user
    rw [if_pos hpc]
  refine ⟨h1, ?_⟩
  intro e he
  rw [h1] at he
  have : e = (p.user_id, Payload.sfuOffer o uid) := by simpa using he
  rw [this]
  exact hne

/-- Claim C7, witness. -/
theorem relay_offer_to_target_only_witness :
    handle_sfu_offer
        ⟨["u1", "u2"], [],
          [("A", [⟨"u1", "P1", "u1"⟩, ⟨"u2", "P2", "u2"⟩])]⟩ "u1"
        (some "u2") (some "sdp")
      = [("u2", Payload.sfuOffer "sdp" "u1")]
    ∧ ∀ e ∈ handle_sfu_offer
        ⟨["u1", "u2"], [],
          [("A", [⟨"u1", "P1", "u1"⟩, ⟨"u2", "P2", "u2"⟩])]⟩ "u1"
        (some "u2") (some "sdp"), e.1 ≠ "u1" :=
  relay_offer_to_target_only
    ⟨["u1", "u2"], [], [("A", [⟨"u1", "P1", "u1"⟩, ⟨"u2", "P2", "u2"⟩])]⟩
    "u1" "u2" "sdp" ("A", [⟨"u1", "P1", "u1"⟩, ⟨"u2", "P2", "u2"⟩])
    ⟨"u2", "P2", "u2"⟩ (by decide) (by decide) (by decide) (by decide)
    (by decide) (by decide) (by decide)

theorem assocSet_unique (parts : List Participant) (p : Participant)
    (h : parts.countP (fun q => decide (q.id = p.id)) ≤ 1) :
    (assocSetParticipant parts p).countP
        (fun q => decide (q.id = p.id)) = 1
    ∧ ∀ q ∈ assocSetParticipant parts p, q.id = p.id → q = p := by
  unfold assocSetParticipant
  by_cases hany : parts.any (fun q => decide (q.id = p.id)) = true
  · rw [if_pos hany]
    constructor
    · rw [List.countP_map]
      have heq : ((fun q => decide (q.id = p.id)) ∘
          (fun q => if q.id = p.id then p else q))
          = fun q => decide (q.id = p.id) := by
        funext q
        by_cases hq : q.id = p.id <;> simp [hq]
      rw [heq]
      have hpos : 0 < parts.countP (fun q => decide (q.id = p.id)) := by
        rw [List.countP_pos_iff]
        obtain ⟨q, hq, hqp⟩ := List.any_eq_true.mp hany
        exact ⟨q, hq, hqp⟩
      omega
    · intro q hq hid
      rw [List.mem_map] at hq
      obtain ⟨q0, hq0, hfq⟩ := hq
      subst hfq
      by_cases h0 : q0.id = p.id
      · rw [if_pos h0]
      · rw [if_neg h0] at hid ⊢
        exact absurd hid h0
  · rw [if_neg hany]
    have hzero : parts.countP (fun q => decide (q.id = p.id)) = 0 := by
      rw [List.countP_eq_zero]
      intro q hq
      simp only [decide_eq_true_eq]
      intro hcontra
      exact hany (List.any_eq_true.mpr ⟨q, hq, by simpa using hcontra⟩)
    constructor
    · rw [List.countP_append, hzero]
      simp
    · intro q hq hid
      rw [List.mem_append] at hq
      rcases hq with hmem | hmem
      · exact absurd
          (List.any_eq_true.mpr ⟨q, hmem, by simpa using hid⟩) hany
      · simpa using hmem

theorem roomParts_cases (rooms : List (String × List Participant))
    (rid : String) :
    roomParts rooms rid = [] ∨ ∃ r ∈ rooms, roomParts rooms rid = r.2 := by
  unfold roomParts
  cases hfind : rooms.find? (fun r => decide (r.1 = rid)) with
  | none => left; rfl
  | some r1 =>
    right
    exact ⟨r1, List.mem_of_find?_eq_some hfind, rfl⟩

theorem roomParts_count_le (rooms : List (String × List Participant))
    (rid uid : String)
    (hcnt : ∀ r ∈ rooms, r.2.countP (fun q => decide (q.id = uid)) ≤ 1) :
    (roomParts (roomsAfterCreate rooms rid) rid).countP
      (fun q => decide (q.id = uid)) ≤ 1 := by
  rcases roomParts_cases (roomsAfterCreate rooms rid) rid with h | ⟨r1, hmem, h⟩
  · rw [h]
    simp
  · rw [h]
    unfold roomsAfterCreate at hmem
    split at hmem
    · exact hcnt r1 hmem
    · rcases List.mem_append.mp hmem with h1 | h1
      · exact hcnt r1 h1
      · have h2 : r1 = (rid, []) := by simpa using h1
        subst h2
        simp

/-- Claim C9, counterexample: the same user joining call room r twice
leaves a single participant in the room, and that participant is keyed
by the chat identity u1 itself; the claim expects a call-room-scoped
identity distinct from the chat identity, allowing several participants
per user. -/
theorem participant_id_is_chat_identity :
    (handle_sfu_join_room
        (handle_sfu_join_room ⟨["u1"], [], []⟩ "u1" (some "r")
          (some "A")).1
        "u1" (some "r") (some "B")).1.video_rooms
      = [("r", [⟨"u1", "B", "u1"⟩])] := by decide

/-- Claim C9, amended: the participant registered by a call-room join is
keyed by the chat identity of the owning user (the source assigns
participant_id from user_id), so one user identity holds at most one
participant per call room; a repeated join overwrites the entry in
place. -/
theorem one_participant_per_user_per_room (st : ManagerState)
    (uid rid name : String) (hr : rid ≠ "") (hn : name ≠ "")
    (hcnt : ∀ r ∈ st.video_rooms,
      r.2.countP (fun q => decide (q.id = uid)) ≤ 1) :
    ∀ r ∈ (handle_sfu_join_room st uid (some rid)
        (some name)).1.video_rooms,
      r.1 = rid →
      r.2.countP (fun q => decide (q.id = uid)) = 1
      ∧ ∀ q ∈ r.2, q.id = uid → q = ⟨uid, name, uid⟩ := by
  intro r hmem hrid
  unfold handle_sfu_join_room at hmem
  rw [if_pos ⟨truthy_some hr, truthy_some hn⟩] at hmem
  simp only [Option.getD_some, List.mem_map] at hmem
  obtain ⟨r0, hr0, hfr⟩ := hmem
  subst hfr
  by_cases h0 : r0.1 = rid
  · rw [if_pos h0]
    have hle := roomParts_count_le st.video_rooms rid uid hcnt
    exact assocSet_unique (roomParts (roomsAfterCreate st.video_rooms rid)
      rid) ⟨uid, name, uid⟩ hle
  · rw [if_neg h0] at hrid
    exact absurd hrid h0

/-- Claim C9, amended claim witness. -/
theorem one_participant_per_user_per_room_witness :
    ((("r", [⟨"u1", "B", "u1"⟩]) : String × List Participant)).2.countP
        (fun q => decide (q.id = "u1")) = 1
    ∧ ∀ q ∈ ((("r", [⟨"u1", "B", "u1"⟩]) : String × List Participant)).2,
        q.id = "u1" → q = ⟨"u1", "B", "u1"⟩ :=
  one_participant_per_user_per_room
    ⟨["u1"], [], [("r", [⟨"u1", "A", "u1"⟩])]⟩ "u1" "r" "B"
    (by decide) (by decide) (by decide)
    (("r", [⟨"u1", "B", "u1"⟩]) : String × List Participant)
    (by decide) rfl

theorem countP_self_of_nodup {l : List String} (hn : l.Nodup) {w : String}
    (hm : w ∈ l) : l.countP (fun x => decide (x = w)) = 1 := by
  induction l with
  | nil => cases hm
  | cons a t ih =>
    rw [List.nodup_cons] at hn
    rw [List.countP_cons]
    rcases List.mem_cons.mp hm with h | h
    · subst h
      have hz : t.countP (fun x => decide (x = w)) = 0 := by
        rw [List.countP_eq_zero]
        intro x hx
        simp only [decide_eq_true_eq]
        intro hxx
        exact hn.1 (hxx ▸ hx)
      simp [hz]
    · have ha : a ≠ w := fun hh => hn.1 (hh ▸ h)
      simp [ha, ih hn.2 h]

theorem disconnectRoomEvents_payload (st : ManagerState) (uid : String) :
    ∀ e ∈ disconnectRoomEvents st uid, e.2 = Payload.userLeft uid := by
  intro e he
  unfold disconnectRoomEvents at he
  rw [List.mem_flatMap] at he
  obtain ⟨r, hr, he2⟩ := he
  split at he2
  · rw [List.mem_flatMap] at he2
    obtain ⟨p, hp, he3⟩ := he2
    rw [send_to_user_mem st p.user_id (Payload.userLeft uid) e he3]
  · simp at he2

theorem disconnectRooms_mem (rooms : List (String × List Participant))
    (uid : String) (r : String × List Participant)
    (hr : r ∈ disconnectRooms rooms uid) :
    ∃ r0 ∈ rooms, (∀ p ∈ r.2, p ∈ r0.2 ∧ p.id ≠ uid)
      ∧ (r0.2 ≠ [] → r.2 ≠ []) := by
  unfold disconnectRooms at hr
  rw [List.mem_filterMap] at hr
  obtain ⟨r0, hr0, hf⟩ := hr
  refine ⟨r0, hr0, ?_⟩
  split at hf
  · dsimp only at hf
    split at hf
    · cases hf
    · rename_i hne
      have hr2 : r = (r0.1, r0.2.filter (fun p => decide (p.id ≠ uid))) := by
        injection hf with h
        exact h.symm
      subst hr2
      constructor
      · intro p hp
        rw [List.mem_filter] at hp
        exact ⟨hp.1, by simpa using hp.2⟩
      · intro _ hcontra
        exact hne (by rw [List.isEmpty_iff]; exact hcontra)
  · rename_i hany
    have hr2 : r = r0 := by
      injection hf with h
      exact h.symm
    subst hr2
    constructor
    · intro p hp
      refine ⟨hp, ?_⟩
      intro hcontra
      exact hany (List.any_eq_true.mpr ⟨p, hp, by simpa using hcontra⟩)
    · exact fun h => h

/-- Claim C5: disconnecting a connected identity removes it from every
chat-channel membership entry and from every call-room participant set
it belonged to, removes call rooms it left empty (with the same
participant removal and user-left notification a leave performs), and
emits exactly one offline presence broadcast for the identity: each
remaining connection receives the offline status exactly once, and the
only status payloads in the output are that offline announcement. -/
theorem disconnect_cleanup_and_single_offline (st : ManagerState)
    (uid : String)
    (hconn : uid ∈ st.user_connections)
    (hndc : st.user_connections.Nodup)
    (hinv : ∀ r ∈ st.video_rooms, ∀ p ∈ r.2, p.user_id = p.id)
    (hner : ∀ r ∈ st.video_rooms, r.2 ≠ []) :
    (∀ e ∈ (handle_disconnect_event st uid).1.user_channels, e.1 ≠ uid)
    ∧ (∀ r ∈ (handle_disconnect_event st uid).1.video_rooms,
        ∀ p ∈ r.2, p.id ≠ uid ∧ p.user_id ≠ uid)
    ∧ (∀ r ∈ (handle_disconnect_event st uid).1.video_rooms, r.2 ≠ [])
    ∧ uid ∉ (handle_disconnect_event st uid).1.user_connections
    ∧ (∀ w ∈ (handle_disconnect_event st uid).1.user_connections,
        ((handle_disconnect_event st uid).2).countP
          (fun e => decide (e = (w, Payload.userStatus uid "offline"))) = 1)
    ∧ (∀ e ∈ (handle_disconnect_event st uid).2, ∀ a s,
        e.2 = Payload.userStatus a s → a = uid ∧ s = "offline") := by
  have hstate : (handle_disconnect_event st uid).1
      = ⟨st.user_connections.filter (fun u => decide (u ≠ uid)),
        st.user_channels.filter (fun e => decide (e.1 ≠ uid)),
        disconnectRooms st.video_rooms uid⟩ := by
    simp only [handle_disconnect_event, disconnect]
    rw [if_pos hconn]
  have hevents : (handle_disconnect_event st uid).2
      = disconnectRoomEvents st uid
        ++ (st.user_connections.filter (fun u => decide (u ≠ uid))).map
            (fun w => (w, Payload.userStatus uid "offline")) := by
    simp only [handle_disconnect_event, disconnect, broadcast_user_status]
    rw [if_pos hconn]
  refine ⟨?_, ?_, ?_, ?_, ?_, ?_⟩
  · intro e he
    rw [hstate] at he
    have h2 := (List.mem_filter.mp he).2
    simpa using h2
  · intro r hr p hp
    rw [hstate] at hr
    obtain ⟨r0, hr0, hall, _⟩ := disconnectRooms_mem st.video_rooms uid r hr
    obtain ⟨hp0, hpid⟩ := hall p hp
    refine ⟨hpid, ?_⟩
    rw [hinv r0 hr0 p hp0]
    exact hpid
  · intro r hr
    rw [hstate] at hr
    obtain ⟨r0, hr0, _, himp⟩ := disconnectRooms_mem st.video_rooms uid r hr
    exact himp (hner r0 hr0)
  · rw [hstate]
    intro hcontra
    have h2 := (List.mem_filter.mp hcontra).2
    simp at h2
  · intro w hw
    rw [hstate] at hw
    rw [hevents, List.countP_append]
    have hz : (disconnectRoomEvents st uid).countP
        (fun e => decide (e = (w, Payload.userStatus uid "offline"))) = 0 := by
      rw [List.countP_eq_zero]
      intro e he
      simp only [decide_eq_true_eq]
      intro hcontra
      have hpl := disconnectRoomEvents_payload st uid e he
      rw [hcontra] at hpl
      simp at hpl
    rw [hz, List.countP_map]
    have heq : ((fun e => decide (e = (w, Payload.userStatus uid "offline")))
        ∘ (fun w2 => (w2, Payload.userStatus uid "offline")))
        = fun w2 => decide (w2 = w) := by
      funext w2
      by_cases hww : w2 = w <;> simp [hww]
    rw [heq]
    have hndf :
        (st.user_connections.filter (fun u => decide (u ≠ uid))).Nodup :=
      hndc.filter _
    rw [countP_self_of_nodup hndf hw]
  · intro e he a s hes
    rw [hevents] at he
    rcases List.mem_append.mp he with h | h
    · have hpl := disconnectRoomEvents_payload st uid e h
      rw [hpl] at hes
      cases hes
    · rw [List.mem_map] at h
      obtain ⟨w2, _, hw2⟩ := h
      rw [← hw2] at hes
      have hes2 : Payload.userStatus uid "offline"
          = Payload.userStatus a s := hes
      injection hes2 with h1 h2
      exact ⟨h1.symm, h2.symm⟩

/-- Claim C5, witness. -/
theorem disconnect_cleanup_and_single_offline_witness :
    (∀ e ∈ (handle_disconnect_event
        ⟨["a", "b"], [("a", ["c1"]), ("b", ["c1"])],
          [("r", [⟨"a", "A", "a"⟩, ⟨"b", "B", "b"⟩]),
           ("r2", [⟨"a", "A", "a"⟩])]⟩ "a").1.user_channels, e.1 ≠ "a")
    ∧ (∀ r ∈ (handle_disconnect_event
        ⟨["a", "b"], [("a", ["c1"]), ("b", ["c1"])],
          [("r", [⟨"a", "A", "a"⟩, ⟨"b", "B", "b"⟩]),
           ("r2", [⟨"a", "A", "a"⟩])]⟩ "a").1.video_rooms,
        ∀ p ∈ r.2, p.id ≠ "a" ∧ p.user_id ≠ "a")
    ∧ (∀ r ∈ (handle_disconnect_event
        ⟨["a", "b"], [("a", ["c1"]), ("b", ["c1"])],
          [("r", [⟨"a", "A", "a"⟩, ⟨"b", "B", "b"⟩]),
           ("r2", [⟨"a", "A", "a"⟩])]⟩ "a").1.video_rooms, r.2 ≠ [])
    ∧ "a" ∉ (handle_disconnect_event
        ⟨["a", "b"], [("a", ["c1"]), ("b", ["c1"])],
          [("r", [⟨"a", "A", "a"⟩, ⟨"b", "B", "b"⟩]),
           ("r2", [⟨"a", "A", "a"⟩])]⟩ "a").1.user_connections
    ∧ (∀ w ∈ (handle_disconnect_event
        ⟨["a", "b"], [("a", ["c1"]), ("b", ["c1"])],
          [("r", [⟨"a", "A", "a"⟩, ⟨"b", "B", "b"⟩]),
           ("r2", [⟨"a", "A", "a"⟩])]⟩ "a").1.user_connections,
        ((handle_disconnect_event
        ⟨["a", "b"], [("a", ["c1"]), ("b", ["c1"])],
          [("r", [⟨"a", "A", "a"⟩, ⟨"b", "B", "b"⟩]),
           ("r2", [⟨"a", "A", "a"⟩])]⟩ "a").2).countP
          (fun e => decide (e = (w, Payload.userStatus "a" "offline"))) = 1)
    ∧ (∀ e ∈ (handle_disconnect_event
        ⟨["a", "b"], [("a", ["c1"]), ("b", ["c1"])],
          [("r", [⟨"a", "A", "a"⟩, ⟨"b", "B", "b"⟩]),
           ("r2", [⟨"a", "A", "a"⟩])]⟩ "a").2, ∀ x s,
        e.2 = Payload.userStatus x s → x = "a" ∧ s = "offline") :=
  disconnect_cleanup_and_single_offline
    ⟨["a", "b"], [("a", ["c1"]), ("b", ["c1"])],
      [("r", [⟨"a", "A", "a"⟩, ⟨"b", "B", "b"⟩]),
       ("r2", [⟨"a", "A", "a"⟩])]⟩ "a"
    (by decide) (by decide) (by decide) (by decide)
